import Mathlib

/-!
# Verification of the volumetric-stack core of `butterfly_viewer_for_tomogram`

Shallow embedding of the two subsystems named by the specification:

* `VolumetricImageHandler` (`src/butterfly_viewer/aux_volumetric.py`):
  the intensity window (`data_range`, `original_data_range`,
  `use_forced_range`), the slice cache (`_cached_slices`, a Python dict,
  hence insertion-ordered), `_normalize_image`, `get_slice_pixmap`,
  `update_display_range`, `reset_display_range`, `is_volumetric_file`.

* The slice synchronisation engine
  (`src/butterfly_viewer/butterfly_viewer.py`):
  `MultiViewMainWindow.synchSlice` and `SplitViewMdiChild.load_slice`,
  including the `_handling_slice_sync` re-entrancy flags on the main
  window and on each child.

Python numbers (ints and floats used as intensity bounds) are embedded as
`ℚ`; slice indices are embedded as `ℤ` (Python ints).  External I/O (PIL /
tifffile decoding, Qt pixmap construction) is abstracted as oracles of
type `ℤ → Option Img`: `none` stands for the `except` path of the source
(`get_slice_pixmap` catches decode errors and returns `None`).
-/

/-- A raster as the code sees it: either an 8-bit image (PIL mode `L`,
which is also the shape of every normalized output and of a `QPixmap`
holding `Format_Grayscale8` data), or a higher-depth image (PIL modes
`I`, `I;16*`, `F`) whose samples are numeric. -/
inductive Img where
  | modeL (w h : ℕ) (bytes : List ℕ)
  | numeric (w h : ℕ) (samples : List ℚ)
deriving DecidableEq

/-- `QPixmap.width()`. -/
def Img.width : Img → ℕ
  | .modeL w _ _ => w
  | .numeric w _ _ => w

/-- `QPixmap.height()`. -/
def Img.height : Img → ℕ
  | .modeL _ h _ => h
  | .numeric _ h _ => h

/-- `QPixmap.isNull()`: true when either dimension is zero. -/
def Img.isNull (pm : Img) : Bool :=
  pm.width == 0 || pm.height == 0

/-- `QPixmap(width, height)` followed by `fill(QtCore.Qt.black)`
(butterfly_viewer.py line 2834): a raster of the given dimensions whose
bytes are all zero. -/
def blackPixmap (w h : ℕ) : Img :=
  .modeL w h (List.replicate (w * h) 0)

/-- `np.clip(a, lo, hi)`: `min (max a lo) hi` per sample. -/
def np_clip (s lo hi : ℚ) : ℚ := min (max s lo) hi

/-- One sample of the normalization path of `_normalize_image`
(aux_volumetric.py lines 207-208):
`((np.clip(s, lo, hi) - lo) / (hi - lo) * 255).astype(np.uint8)`.
`astype(np.uint8)` is a C cast, which truncates toward zero; the clipped
quotient lies in `[0, 255]`, so this is `Int.floor` followed by `toNat`. -/
def normalizeSample (lo hi s : ℚ) : ℕ :=
  (⌊(np_clip s lo hi - lo) / (hi - lo) * 255⌋).toNat

/-- The spec's wording of the same map ("rescale linearly to [0,255],
round to nearest integer"), written for comparison with
`normalizeSample`, which is taken from the source. -/
def normalizeSampleSpec (lo hi s : ℚ) : ℤ :=
  round ((np_clip s lo hi - lo) / (hi - lo) * 255)

/-- `VolumetricImageHandler._normalize_image` (aux_volumetric.py lines
181-210).  The only handler state it reads is `self.data_range`, passed
here as `range`.  Mode-`L` images are returned unchanged (line 191);
otherwise, if `min_val == max_val` the output is `np.zeros_like` (lines
202-204), else each sample is clipped and rescaled (lines 207-208). -/
def normalize_image (range : ℚ × ℚ) : Img → Img
  | .modeL w h bytes => .modeL w h bytes
  | .numeric w h samples =>
      let min_val := range.1
      let max_val := range.2
      if min_val = max_val then
        .modeL w h (samples.map fun _ => 0)
      else
        .modeL w h (samples.map (normalizeSample min_val max_val))

/-- The mutable state of `VolumetricImageHandler` that the claims touch
(aux_volumetric.py lines 52-62).  `cached_slices` embeds the Python dict
`_cached_slices`: keys in insertion order, oldest first (Python dicts
preserve insertion order; `next(iter(d))` is the oldest key). -/
structure VolumetricImageHandler where
  data_range : ℚ × ℚ
  original_data_range : ℚ × ℚ
  use_forced_range : Bool
  cached_slices : List (ℤ × Img)
  total_slices : ℤ
  current_slice : ℤ
deriving DecidableEq

namespace VolumetricImageHandler

/-- `VolumetricImageHandler.get_slice_pixmap` (aux_volumetric.py lines
212-266).  `load` abstracts the tifffile/PIL slice read (lines 234-243);
`none` is the exception path (lines 264-266), on which the handler is
unchanged and `None` is returned.  On a successful load the image is
normalized, and cached after evicting the oldest entry when
`len(self._cached_slices) > 10` (lines 257-262). -/
def get_slice_pixmap (load : ℤ → Option Img) (h : VolumetricImageHandler)
    (slice_index? : Option ℤ) : Option Img × VolumetricImageHandler :=
  let slice_index := slice_index?.getD h.current_slice
  if slice_index < 0 ∨ h.total_slices ≤ slice_index then (none, h)
  else
    match h.cached_slices.lookup slice_index with
    | some pm => (some pm, h)
    | none =>
        match load slice_index with
        | none => (none, h)
        | some img =>
            let pm := normalize_image h.data_range img
            let cache0 :=
              if 10 < h.cached_slices.length then h.cached_slices.tail
              else h.cached_slices
            (some pm, { h with cached_slices := cache0 ++ [(slice_index, pm)] })

/-- `VolumetricImageHandler.update_display_range` (aux_volumetric.py
lines 326-358).  When both bounds are given and `force` is set, the
forced flag is raised and the candidate range is the given pair (lines
337-340); otherwise the candidate range starts from `self.data_range`
and overrides only the provided bound(s) (lines 341-349).  The candidate
is committed, and the cache cleared, exactly when `min < max` (lines
352-356); otherwise `False` is returned (line 358). -/
def update_display_range (h : VolumetricImageHandler)
    (min_value max_value : Option ℚ) (force : Bool) :
    Bool × VolumetricImageHandler :=
  let step :=
    match min_value, max_value, force with
    | some mn, some mx, true => ({ h with use_forced_range := true }, mn, mx)
    | _, _, _ =>
        (h, min_value.getD h.data_range.1, max_value.getD h.data_range.2)
  let h1 := step.1
  let current_min := step.2.1
  let current_max := step.2.2
  if current_min < current_max then
    (true, { h1 with data_range := (current_min, current_max),
                     cached_slices := [] })
  else
    (false, h1)

/-- `VolumetricImageHandler.reset_display_range` (aux_volumetric.py lines
360-370): clear the forced flag, restore the detected range, clear the
cache, return `True`. -/
def reset_display_range (h : VolumetricImageHandler) :
    Bool × VolumetricImageHandler :=
  (true, { h with use_forced_range := false,
                  data_range := h.original_data_range,
                  cached_slices := [] })

end VolumetricImageHandler

/-- Outcomes of the content probes that `is_volumetric_file` may perform
(aux_volumetric.py lines 157-177): the `tifffile.TiffFile` probe, the
`tifffile.memmap` probe, and the PIL fallback.  Abstract because the
probing itself is external I/O. -/
structure TiffProbe where
  tiffOk : Bool
  samplesIsOne : Bool
  multiPage : Bool
  memmapOk : Bool
  memmapMulti : Bool
  pilOk : Bool
  pilModeSupported : Bool
  pilHasSecondFrame : Bool
deriving DecidableEq

/-- The lowercased-extension test of aux_volumetric.py line 154:
`filepath.lower().endswith((".tif", ".tiff"))`, written over the
character list of the path. -/
def hasTiffSuffix (filepath : String) : Bool :=
  (".tif".data.isSuffixOf (filepath.data.map Char.toLower)) ||
  (".tiff".data.isSuffixOf (filepath.data.map Char.toLower))

/-- The PIL fallback of `is_volumetric_file` (aux_volumetric.py lines
168-179): reject unsupported modes, then report whether `img.seek(1)`
succeeds; any exception yields `False`. -/
def pilFallback (pr : TiffProbe) : Bool :=
  if pr.pilOk then
    if pr.pilModeSupported then pr.pilHasSecondFrame else false
  else false

/-- `VolumetricImageHandler.is_volumetric_file` (aux_volumetric.py lines
143-179).  `present` is `os.path.exists(filepath)`.  The existence and
extension test (line 154) runs before any content probe; the tifffile
probes run next, and any exception in them falls back to PIL. -/
def is_volumetric_file (present : Bool) (filepath : String)
    (pr : TiffProbe) : Bool :=
  if !present || !hasTiffSuffix filepath then false
  else if pr.tiffOk then
    if !pr.samplesIsOne then false
    else if pr.multiPage then true
    else if pr.memmapOk then pr.memmapMulti
    else pilFallback pr
  else pilFallback pr

/-!
## The slice synchronisation engine

`SplitViewMdiChild` state relevant to slice sync (butterfly_viewer.py
lines 64-553): in the source, `is_volumetric` is true exactly when
`volumetric_handler` is set, so the pair of checks
`not self.is_volumetric or not self.volumetric_handler` collapses to one
flag here.  `displayed` stands for the pixmap shown by
`_pixmapItem_main_topleft` / `_pixmap_item_main_topleft` (the loop in
`synchSlice` reads dimensions from the former and replaces the latter;
both name the viewer's displayed raster).  The handler's internal cache
is modelled separately above; here `getPix` abstracts
`volumetric_handler.get_slice_pixmap`, with `none` for its `None`
return. -/
structure Viewer where
  is_volumetric : Bool
  total_slices : ℤ
  current_slice : ℤ
  sync_this_slice : Bool
  handling_slice_sync : Bool
  displayed : Option Img
deriving DecidableEq

/-- `SplitViewMdiChild.load_slice` (butterfly_viewer.py lines 512-553)
as executed on a sibling during fan-out, i.e. while
`MultiViewMainWindow._handling_slice_sync` is already `True`: the tail
call `window.synchSlice(self)` (line 552) then returns immediately at
its recursion check (lines 2806-2807), and the sibling's own flag is set
and cleared around it (lines 551-553) with no net effect, so that tail
is invisible here.  Lines 518-529: bail out for non-volumetric viewers
or when the child's own `_handling_slice_sync` is set, then clamp the
index into `[0, total_slices - 1]`.  Lines 532-539: on a successful
pixmap load, display it and record the clamped index; a `None` pixmap
leaves the viewer unchanged. -/
def load_slice_applied (getPix : ℤ → Option Img) (v : Viewer) (idx : ℤ) :
    Viewer :=
  if !v.is_volumetric then v
  else if v.handling_slice_sync then v
  else
    let i := if idx < 0 then 0
             else if v.total_slices ≤ idx then v.total_slices - 1
             else idx
    match getPix i with
    | some pm => { v with displayed := some pm, current_slice := i }
    | none => v

/-- The body of the `synchSlice` fan-out loop for one sibling that has
`sync_this_slice` set (butterfly_viewer.py lines 2817-2842), when no
exception occurs: a volumetric sibling loads the origin's slice if it
exists, else its own last slice (lines 2817-2823); a non-volumetric
sibling whose current pixmap exists and is not null has its displayed
raster replaced by a black pixmap of the same dimensions (lines
2827-2842). -/
def applySliceOk (getPix : ℤ → Option Img) (fromSlice : ℤ) (v : Viewer) :
    Viewer :=
  if v.is_volumetric then
    if fromSlice < v.total_slices then load_slice_applied getPix v fromSlice
    else load_slice_applied getPix v (v.total_slices - 1)
  else
    match v.displayed with
    | some pm =>
        if pm.isNull then v
        else { v with displayed := some (blackPixmap pm.width pm.height) }
    | none => v

/-- The loop body applied when the sibling is sync-enabled. -/
def applyIfSync (getPix : ℤ → Option Img) (fromSlice : ℤ) (v : Viewer) :
    Viewer :=
  if v.sync_this_slice then applySliceOk getPix fromSlice v else v

/-- The `for window in windows` loop of `synchSlice` (butterfly_viewer.py
lines 2812-2842) over the viewers other than `fromViewer`, with a raise
oracle: `raises.headD false` says whether applying the payload to the
current sibling raises an exception (e.g. a Qt error escaping
`load_slice`, which has no handler of its own).  The loop body has no
`try`/`except`, so an exception stops the loop: the raising sibling and
every later sibling keep their state, and the second component reports
that the exception escaped the loop. -/
def fanOutSlice (getPix : ℤ → Option Img) (fromSlice : ℤ) :
    List Bool → List Viewer → List Viewer × Bool
  | _, [] => ([], false)
  | raises, v :: rest =>
      if v.sync_this_slice then
        if raises.headD false then (v :: rest, true)
        else
          let out := fanOutSlice getPix fromSlice raises.tail rest
          (applySliceOk getPix fromSlice v :: out.1, out.2)
      else
        let out := fanOutSlice getPix fromSlice raises.tail rest
        (v :: out.1, out.2)

/-- `MultiViewMainWindow` state relevant to slice sync:
`_handling_slice_sync` (butterfly_viewer.py line 728), the viewer that
triggered the change, and the other viewers of `_mdiArea.subWindowList()`
in iteration order. -/
structure SyncWorld where
  handling_slice_sync : Bool
  origin : Viewer
  siblings : List Viewer
deriving DecidableEq

/-- `MultiViewMainWindow.synchSlice` (butterfly_viewer.py lines
2796-2844).  Early return when the origin is not volumetric (lines
2802-2803) or the window-level flag is already set (lines 2806-2807).
Otherwise the flag is set (line 2809), the fan-out loop runs inside
`try`, and the `finally` clears the flag on every exit path (lines
2843-2844) — so the flag ends `false` whether or not an exception
escaped the loop; the Boolean result reports such an exception. -/
def synchSlice (getPix : ℤ → Option Img) (raises : List Bool)
    (w : SyncWorld) : SyncWorld × Bool :=
  if !w.origin.is_volumetric then (w, false)
  else if w.handling_slice_sync then (w, false)
  else
    let out := fanOutSlice getPix w.origin.current_slice raises w.siblings
    ({ w with siblings := out.1, handling_slice_sync := false }, out.2)

/-- `SplitViewMdiChild.load_slice` as executed on the origin viewer, the
entry point of a slice change (butterfly_viewer.py lines 512-553), with
fan-out.  After the clamp and a successful pixmap load, if slice sync is
enabled the child sets its own `_handling_slice_sync = True` (line 551),
calls `window.synchSlice(self)` (line 552), and clears the flag (line
553) — with no `try`/`finally`, so when `synchSlice` lets an exception
escape, line 553 never runs and the origin's flag stays `True`.  The
Boolean result reports an exception escaping the whole call. -/
def load_slice_origin (getPix : ℤ → Option Img) (raises : List Bool)
    (w : SyncWorld) (idx : ℤ) : SyncWorld × Bool :=
  let v := w.origin
  if !v.is_volumetric then (w, false)
  else if v.handling_slice_sync then (w, false)
  else
    let i := if idx < 0 then 0
             else if v.total_slices ≤ idx then v.total_slices - 1
             else idx
    match getPix i with
    | none => (w, false)
    | some pm =>
        let v1 := { v with displayed := some pm, current_slice := i }
        if v1.sync_this_slice then
          let v2 := { v1 with handling_slice_sync := true }
          let out := synchSlice getPix raises { w with origin := v2 }
          if out.2 then (out.1, true)
          else
            ({ out.1 with
                origin := { out.1.origin with handling_slice_sync := false } },
             false)
        else ({ w with origin := v1 }, false)

/-!
## Concrete fixtures used by counterexamples and witnesses
-/

/-- A 1×1 8-bit raster. -/
def pxA : Img := .modeL 1 1 [0]

/-- A slice read that always succeeds with `pxA`. -/
def loadA : ℤ → Option Img := fun _ => some pxA

/-- A 20-slice handler with an empty cache and the default 8-bit range. -/
def hC1 : VolumetricImageHandler :=
  { data_range := (0, 255), original_data_range := (0, 255),
    use_forced_range := false, cached_slices := [],
    total_slices := 20, current_slice := 10 }

/-- A handler whose detected range is `(10, 255)`. -/
def hC2 : VolumetricImageHandler :=
  { data_range := (10, 255), original_data_range := (10, 255),
    use_forced_range := false, cached_slices := [],
    total_slices := 5, current_slice := 2 }

/-- A handler with one cached slice and the forced flag clear. -/
def hC3 : VolumetricImageHandler :=
  { data_range := (0, 255), original_data_range := (0, 255),
    use_forced_range := false, cached_slices := [(0, pxA)],
    total_slices := 20, current_slice := 10 }

/-- A sequence of `get_slice_pixmap` calls at the given indices,
keeping only the handler state. -/
def run_gets (load : ℤ → Option Img) (h : VolumetricImageHandler)
    (idxs : List ℤ) : VolumetricImageHandler :=
  idxs.foldl (fun h i => (h.get_slice_pixmap load (some i)).2) h

/-- A probe reporting a well-formed single-channel multi-page TIFF. -/
def prW : TiffProbe :=
  { tiffOk := true, samplesIsOne := true, multiPage := true,
    memmapOk := true, memmapMulti := true, pilOk := true,
    pilModeSupported := true, pilHasSecondFrame := true }

/-- A sync-enabled volumetric sibling at slice 0 of 5. -/
def sibA : Viewer :=
  { is_volumetric := true, total_slices := 5, current_slice := 0,
    sync_this_slice := true, handling_slice_sync := false,
    displayed := none }

/-- A sync-enabled volumetric origin at slice 3 of 5. -/
def originB : Viewer :=
  { is_volumetric := true, total_slices := 5, current_slice := 3,
    sync_this_slice := true, handling_slice_sync := false,
    displayed := none }

/-- A pixmap read that always succeeds with `pxA`. -/
def getPixA : ℤ → Option Img := fun _ => some pxA

/-- One origin and one sibling, idle guards. -/
def worldA : SyncWorld :=
  { handling_slice_sync := false, origin := originB, siblings := [sibA] }

/-- One origin and two siblings, idle guards. -/
def worldB : SyncWorld :=
  { handling_slice_sync := false, origin := originB,
    siblings := [sibA, sibA] }

/-- A 3-slice sync-enabled volumetric viewer. -/
def vvA : Viewer :=
  { is_volumetric := true, total_slices := 3, current_slice := 0,
    sync_this_slice := true, handling_slice_sync := false,
    displayed := none }

/-- A 4×5 raster. -/
def pmN : Img := .modeL 4 5 [1]

/-- A non-volumetric viewer currently displaying `pmN`. -/
def nvA : Viewer :=
  { is_volumetric := false, total_slices := 0, current_slice := 0,
    sync_this_slice := true, handling_slice_sync := false,
    displayed := some pmN }

/-!
## Claims
-/

/-- C1, counterexample.  The claim says the frame cache never holds more
than 10 entries.  It does: starting from an empty cache, eleven
successful `get_slice_pixmap` calls at the distinct indices 0..10 leave
eleven cached entries, because eviction (aux_volumetric.py line 258)
only runs when `len(self._cached_slices) > 10`, i.e. when the cache
already holds 11 entries. -/
theorem C1_cache_counterexample :
    ((run_gets loadA hC1 [0, 1, 2, 3, 4, 5, 6, 7, 8, 9, 10]).cached_slices).length
      = 11 := by
  decide

/-- C1, amended.  The frame cache never holds more than 11 entries: any
`get_slice_pixmap` call on a handler whose cache holds at most 11
entries leaves at most 11, and when the cache already holds 11 entries a
call either leaves it unchanged (invalid index, cache hit, or failed
load) or evicts exactly the single oldest-inserted entry and appends the
new one, leaving the other 10 untouched and in order. -/
theorem C1_cache_bound (load : ℤ → Option Img) (h : VolumetricImageHandler)
    (idx? : Option ℤ) (hlen : h.cached_slices.length ≤ 11) :
    (((h.get_slice_pixmap load idx?).2).cached_slices).length ≤ 11 ∧
    (h.cached_slices.length = 11 →
      ((h.get_slice_pixmap load idx?).2).cached_slices = h.cached_slices ∨
      ∃ k pm, ((h.get_slice_pixmap load idx?).2).cached_slices
          = h.cached_slices.tail ++ [(k, pm)]) := by
  unfold VolumetricImageHandler.get_slice_pixmap
  dsimp only
  split
  · exact ⟨hlen, fun _ => Or.inl rfl⟩
  · split
    · exact ⟨hlen, fun _ => Or.inl rfl⟩
    · split
      · exact ⟨hlen, fun _ => Or.inl rfl⟩
      · dsimp only
        split
        · next h10 =>
            refine ⟨?_, fun _ => Or.inr ⟨_, _, rfl⟩⟩
            simp only [List.length_append, List.length_tail,
              List.length_singleton]
            omega
        · next h10 =>
            refine ⟨?_, fun h11 => absurd h11 (by omega)⟩
            simp only [List.length_append, List.length_singleton]
            omega

/-- C1, witness for `C1_cache_bound` at `hC1` and index 0. -/
theorem C1_cache_bound_witness :
    hC1.cached_slices.length ≤ 11 ∧
    ((((hC1.get_slice_pixmap loadA (some 0)).2).cached_slices).length ≤ 11 ∧
      (hC1.cached_slices.length = 11 →
        ((hC1.get_slice_pixmap loadA (some 0)).2).cached_slices
            = hC1.cached_slices ∨
        ∃ k pm, ((hC1.get_slice_pixmap loadA (some 0)).2).cached_slices
            = hC1.cached_slices.tail ++ [(k, pm)])) :=
  ⟨by decide, C1_cache_bound loadA hC1 (some 0) (by decide)⟩

/-- C2, counterexample.  The claim says a non-forced update merges each
provided bound clamped to `[detectedMin, detectedMax]`.  The code never
clamps: on a handler whose detected range is `(10, 255)`, the call
`update_display_range(min_value=0, force=False)` is accepted and leaves
`currentMin = 0`, strictly below `detectedMin = 10`
(aux_volumetric.py lines 341-356). -/
theorem C2_no_clamp_counterexample :
    (hC2.update_display_range (some 0) none false).1 = true ∧
    ((hC2.update_display_range (some 0) none false).2).data_range.1
      < hC2.original_data_range.1 := by
  constructor
  · decide
  · decide

/-- C2, amended.  A non-forced `update_display_range` call merges each
provided bound onto the current bounds as-is, with no clamping to the
detected range: it is accepted exactly when the merged pair satisfies
`min < max`, and then the new current range is exactly the merged pair,
the cache is cleared, and the forced flag is unchanged. -/
theorem C2_merge_no_clamp (h : VolumetricImageHandler)
    (mn mx : Option ℚ) :
    ((h.update_display_range mn mx false).1 = true
        ↔ mn.getD h.data_range.1 < mx.getD h.data_range.2) ∧
    ((h.update_display_range mn mx false).1 = true →
      ((h.update_display_range mn mx false).2).data_range
          = (mn.getD h.data_range.1, mx.getD h.data_range.2) ∧
      ((h.update_display_range mn mx false).2).cached_slices = [] ∧
      ((h.update_display_range mn mx false).2).use_forced_range
          = h.use_forced_range) := by
  cases mn <;> cases mx <;>
    · constructor
      · constructor
        · intro hacc
          unfold VolumetricImageHandler.update_display_range at hacc
          dsimp only at hacc
          split at hacc
          · next hlt => simpa using hlt
          · simp at hacc
        · intro hlt
          unfold VolumetricImageHandler.update_display_range
          dsimp only
          rw [if_pos (by simpa using hlt)]
      · intro hacc
        unfold VolumetricImageHandler.update_display_range at hacc ⊢
        dsimp only at hacc ⊢
        split at hacc
        · next hlt => rw [if_pos hlt]; exact ⟨rfl, rfl, rfl⟩
        · simp at hacc

/-- C2, witness for `C2_merge_no_clamp` at `hC2`. -/
theorem C2_merge_no_clamp_witness :
    ((hC2.update_display_range (some 0) none false).1 = true
        ↔ (some (0 : ℚ)).getD hC2.data_range.1
            < (none : Option ℚ).getD hC2.data_range.2) ∧
    ((hC2.update_display_range (some 0) none false).1 = true →
      ((hC2.update_display_range (some 0) none false).2).data_range
          = ((some (0 : ℚ)).getD hC2.data_range.1,
             (none : Option ℚ).getD hC2.data_range.2) ∧
      ((hC2.update_display_range (some 0) none false).2).cached_slices = [] ∧
      ((hC2.update_display_range (some 0) none false).2).use_forced_range
          = hC2.use_forced_range) :=
  C2_merge_no_clamp hC2 (some 0) none

/-- C3, counterexample.  The claim says every rejected update is a
complete no-op, the forced flag included.  In the forced path the code
sets `self.use_forced_range = True` (aux_volumetric.py line 339) before
the validity check of line 352: the rejected call
`update_display_range(5, 5, force=True)` returns `False` yet flips the
forced flag from `False` to `True`. -/
theorem C3_forced_flag_counterexample :
    (hC3.update_display_range (some 5) (some 5) true).1 = false ∧
    ((hC3.update_display_range (some 5) (some 5) true).2).use_forced_range
      = true ∧
    hC3.use_forced_range = false := by
  refine ⟨by decide, by decide, by decide⟩

/-- C3, amended.  A rejected `update_display_range` call (returning
`false`) raises no error and preserves the current bounds, the cache,
and every other handler field, except that in the forced path — both
bounds provided and `force=True` — the forced flag has already been set
to `True` before the rejection.  (The embedding is a total function, so
the no-error part of the claim is by construction.) -/
theorem C3_reject_preserves (h : VolumetricImageHandler)
    (mn mx : Option ℚ) (force : Bool)
    (hrej : (h.update_display_range mn mx force).1 = false) :
    (h.update_display_range mn mx force).2
      = (if mn.isSome ∧ mx.isSome ∧ force = true
         then { h with use_forced_range := true }
         else h) := by
  cases mn <;> cases mx <;> cases force <;>
    · unfold VolumetricImageHandler.update_display_range at hrej ⊢
      dsimp only at hrej ⊢
      split at hrej
      · simp at hrej
      · next hge => rw [if_neg hge]; simp

/-- C3, witness for `C3_reject_preserves` at `hC3`. -/
theorem C3_reject_preserves_witness :
    (hC3.update_display_range (some 5) (some 5) true).1 = false ∧
    (hC3.update_display_range (some 5) (some 5) true).2
      = (if (some (5 : ℚ)).isSome ∧ (some (5 : ℚ)).isSome ∧ true = true
         then { hC3 with use_forced_range := true }
         else hC3) :=
  ⟨by decide, C3_reject_preserves hC3 (some 5) (some 5) true (by decide)⟩

/-- C8, confirmed.  Every accepted `update_display_range` call and every
`reset_display_range` call leaves the cache with zero entries, so a
later `get_slice_pixmap` cannot serve bytes normalized under the
pre-update window (aux_volumetric.py lines 353-356 and 366-370). -/
theorem C8_clear_cache :
    (∀ (h : VolumetricImageHandler) (mn mx : Option ℚ) (force : Bool),
      (h.update_display_range mn mx force).1 = true →
      ((h.update_display_range mn mx force).2).cached_slices = []) ∧
    (∀ h : VolumetricImageHandler,
      (h.reset_display_range).1 = true ∧
      ((h.reset_display_range).2).cached_slices = []) := by
  constructor
  · intro h mn mx force hacc
    unfold VolumetricImageHandler.update_display_range at hacc ⊢
    dsimp only at hacc ⊢
    split at hacc
    · next hlt => rw [if_pos hlt]
    · simp at hacc
  · intro h
    exact ⟨rfl, rfl⟩

/-- C8, witness for `C8_clear_cache` at `hC3`. -/
theorem C8_clear_cache_witness :
    (hC3.update_display_range (some 1) (some 2) false).1 = true ∧
    ((hC3.update_display_range (some 1) (some 2) false).2).cached_slices
      = [] ∧
    ((hC3.reset_display_range).2).cached_slices = [] :=
  ⟨by decide,
   C8_clear_cache.1 hC3 (some 1) (some 2) false (by decide),
   (C8_clear_cache.2 hC3).2⟩

/-- C10, confirmed.  When `force=True` but only one of the two bounds is
provided (or neither), the condition of aux_volumetric.py line 337 fails,
so the call takes the ordinary merge path: it behaves exactly like the
same call with `force=False`, and the forced flag is left unchanged. -/
theorem C10_partial_force_merges (h : VolumetricImageHandler) (x : ℚ) :
    h.update_display_range (some x) none true
        = h.update_display_range (some x) none false ∧
    h.update_display_range none (some x) true
        = h.update_display_range none (some x) false ∧
    h.update_display_range none none true
        = h.update_display_range none none false ∧
    ((h.update_display_range (some x) none true).2).use_forced_range
        = h.use_forced_range ∧
    ((h.update_display_range none (some x) true).2).use_forced_range
        = h.use_forced_range := by
  refine ⟨rfl, rfl, rfl, ?_, ?_⟩ <;>
    · unfold VolumetricImageHandler.update_display_range
      dsimp only
      split <;> rfl

/-- C4, counterexample.  The claim says `_normalize_image` rescales the
clamped sample onto `[0, 255]` *rounded to the nearest integer*.  The
code's `astype(np.uint8)` (aux_volumetric.py line 208) truncates: with
window `(0, 2)` the raw sample `1` rescales to `127.5` (exact in
float64) and is stored as `127`, while rounding to nearest — under
half-up or half-even alike — gives `128`. -/
theorem C4_truncation_counterexample :
    normalize_image (0, 2) (.numeric 1 1 [1]) = .modeL 1 1 [127] ∧
    normalizeSampleSpec 0 2 1 = 128 := by
  constructor
  · have h1 : normalizeSample 0 2 1 = 127 := by
      norm_num [normalizeSample, np_clip]
      decide
    simp [normalize_image, h1]
  · norm_num [normalizeSampleSpec, np_clip, round_eq]

/-- C4, amended.  For every window with `currentMin < currentMax`,
`_normalize_image` maps each raw sample of a high-depth frame to the
clamp of the sample into the window, rescaled linearly onto `[0, 255]`
and *truncated* (floor, via `astype(np.uint8)`), not rounded to nearest:
the output is 0 for samples at or below the minimum, 255 for samples at
or above the maximum, and monotone in between; 8-bit (mode `L`) frames
are returned unchanged.  The map is a pure function of the sample list
and the window, so determinism is by construction. -/
theorem C4_normalize_truncates (lo hi s t : ℚ) (w h : ℕ)
    (bytes : List ℕ) (samples : List ℚ) (hlt : lo < hi) :
    normalize_image (lo, hi) (.modeL w h bytes) = .modeL w h bytes ∧
    normalize_image (lo, hi) (.numeric w h samples)
        = .modeL w h (samples.map (normalizeSample lo hi)) ∧
    (s ≤ lo → normalizeSample lo hi s = 0) ∧
    (hi ≤ s → normalizeSample lo hi s = 255) ∧
    (s ≤ t → normalizeSample lo hi s ≤ normalizeSample lo hi t) := by
  refine ⟨rfl, ?_, ?_, ?_, ?_⟩
  · simp [normalize_image, hlt.ne]
  · intro hs
    unfold normalizeSample np_clip
    rw [max_eq_right hs, min_eq_left hlt.le]
    simp
  · intro hs
    unfold normalizeSample np_clip
    rw [max_eq_left (hlt.le.trans hs), min_eq_right hs,
      div_self (sub_ne_zero.mpr (ne_of_gt hlt))]
    norm_num
    decide
  · intro hst
    have hclip : np_clip s lo hi ≤ np_clip t lo hi :=
      min_le_min (max_le_max hst le_rfl) le_rfl
    have hpos : (0 : ℚ) < hi - lo := by linarith
    have hq : (np_clip s lo hi - lo) / (hi - lo) * 255
        ≤ (np_clip t lo hi - lo) / (hi - lo) * 255 := by
      have := sub_le_sub_right hclip lo
      have hdiv := (div_le_div_iff_of_pos_right hpos).mpr this
      exact mul_le_mul_of_nonneg_right hdiv (by norm_num)
    exact Int.toNat_le_toNat (Int.floor_le_floor hq)

/-- C4, witness for `C4_normalize_truncates` at window `(0, 2)`. -/
theorem C4_normalize_truncates_witness :
    (0 : ℚ) < 2 ∧
    (normalize_image (0, 2) (.modeL 1 1 [9]) = .modeL 1 1 [9] ∧
      normalize_image (0, 2) (.numeric 1 1 [1])
          = .modeL 1 1 ([1].map (normalizeSample 0 2)) ∧
      ((1 : ℚ) ≤ 0 → normalizeSample 0 2 1 = 0) ∧
      ((2 : ℚ) ≤ 1 → normalizeSample 0 2 1 = 255) ∧
      ((1 : ℚ) ≤ 2 → normalizeSample 0 2 1 ≤ normalizeSample 0 2 2)) :=
  ⟨by norm_num, C4_normalize_truncates 0 2 1 2 1 1 [9] [1] (by norm_num)⟩

/-- C9, confirmed.  `is_volumetric_file` tests
`os.path.exists(filepath)` and the lowercased `.tif`/`.tiff` suffix
before any content probe (aux_volumetric.py line 154): for a missing
path or any other extension it returns `False` whatever the file's
contents would have reported, so a multi-frame TIFF stored under
another extension is never detected as volumetric. -/
theorem C9_extension_gate (present : Bool) (filepath : String)
    (pr : TiffProbe)
    (hgate : present = false ∨ hasTiffSuffix filepath = false) :
    is_volumetric_file present filepath pr = false := by
  unfold is_volumetric_file
  rcases hgate with hp | hs
  · subst hp; rfl
  · simp [hs]

/-- C9, witness for `C9_extension_gate`: a probe reporting genuine
multi-page TIFF content, stored under the name `stack.png`, is still
rejected. -/
theorem C9_extension_gate_witness :
    (true = false ∨ hasTiffSuffix "stack.png" = false) ∧
    is_volumetric_file true "stack.png" prW = false :=
  ⟨Or.inr (by decide),
   C9_extension_gate true "stack.png" prW (Or.inr (by decide))⟩

/-- C5, counterexample.  The claim says every guard set before fan-out
is cleared on every exit path, so no viewer is ever left in the
Propagating state.  The origin-side guard is not: `load_slice` sets
`self._handling_slice_sync = True`, calls `window.synchSlice(self)`, and
clears the flag with no `try`/`finally` (butterfly_viewer.py lines
551-553).  When applying the payload to the single sibling raises, the
exception escapes and the origin viewer's guard is left set. -/
theorem C5_guard_leak_counterexample :
    ((load_slice_origin getPixA [true] worldA 3).1).origin.handling_slice_sync
        = true ∧
    (load_slice_origin getPixA [true] worldA 3).2 = true ∧
    worldA.origin.handling_slice_sync = false := by
  refine ⟨by decide, by decide, by decide⟩

/-- `synchSlice` restores the window-level flag on every exit path: the
early returns never touch it, and the fan-out branch runs inside
`try`/`finally` (butterfly_viewer.py lines 2809-2844). -/
theorem synchSlice_flag_restored (getPix : ℤ → Option Img)
    (raises : List Bool) (w : SyncWorld) :
    ((synchSlice getPix raises w).1).handling_slice_sync
      = w.handling_slice_sync := by
  unfold synchSlice
  split
  · rfl
  · split
    · rfl
    · next hg =>
        simp only [Bool.not_eq_true] at hg
        exact hg.symm

/-- `synchSlice` never modifies the viewer that triggered the change. -/
theorem synchSlice_origin_preserved (getPix : ℤ → Option Img)
    (raises : List Bool) (w : SyncWorld) :
    ((synchSlice getPix raises w).1).origin = w.origin := by
  unfold synchSlice
  split
  · rfl
  · split <;> rfl

/-- C5, amended.  The window-level guard set by `synchSlice` is released
on every exit path (its `try`/`finally`, butterfly_viewer.py lines
2809-2844), so `load_slice` always restores it; and the origin viewer's
own guard is restored whenever the call completes normally — but when an
exception escapes the fan-out, the origin viewer's guard is left set in
the Propagating state. -/
theorem C5_guard_release (getPix : ℤ → Option Img) (raises : List Bool)
    (w : SyncWorld) (idx : ℤ) :
    ((load_slice_origin getPix raises w idx).1).handling_slice_sync
        = w.handling_slice_sync ∧
    ((load_slice_origin getPix raises w idx).2 = false →
      ((load_slice_origin getPix raises w idx).1).origin.handling_slice_sync
          = w.origin.handling_slice_sync) ∧
    ((load_slice_origin getPix raises w idx).2 = true →
      ((load_slice_origin getPix raises w idx).1).origin.handling_slice_sync
          = true) := by
  unfold load_slice_origin
  dsimp only
  split
  · exact ⟨rfl, fun _ => rfl, fun hx => by simp at hx⟩
  · split
    · exact ⟨rfl, fun _ => rfl, fun hx => by simp at hx⟩
    · next hg =>
        generalize (if idx < 0 then (0 : ℤ)
          else if w.origin.total_slices ≤ idx then w.origin.total_slices - 1
          else idx) = i
        split
        · exact ⟨rfl, fun _ => rfl, fun hx => by simp at hx⟩
        · split
          · split
            · next hout =>
                refine ⟨?_, fun hx => by simp_all, fun _ => ?_⟩
                · rw [synchSlice_flag_restored]
                · rw [synchSlice_origin_preserved]
            · next hout =>
                refine ⟨?_, fun _ => ?_, fun hx => by simp at hx⟩
                · rw [synchSlice_flag_restored]
                · simp only [Bool.not_eq_true] at hg
                  exact hg.symm
          · exact ⟨rfl, fun _ => rfl, fun hx => by simp at hx⟩

/-- C5, witness for `C5_guard_release` on a fan-out with no exception. -/
theorem C5_guard_release_witness :
    ((load_slice_origin getPixA [] worldA 3).1).handling_slice_sync
        = worldA.handling_slice_sync ∧
    ((load_slice_origin getPixA [] worldA 3).2 = false →
      ((load_slice_origin getPixA [] worldA 3).1).origin.handling_slice_sync
          = worldA.origin.handling_slice_sync) ∧
    ((load_slice_origin getPixA [] worldA 3).2 = true →
      ((load_slice_origin getPixA [] worldA 3).1).origin.handling_slice_sync
          = true) :=
  C5_guard_release getPixA [] worldA 3

/-- C6, counterexample.  The claim says an error on one sibling is
skipped and the remaining siblings still receive the payload.  The
`synchSlice` loop body has no `try`/`except` (butterfly_viewer.py lines
2812-2842): when applying to the first of two sync-enabled siblings
raises, both siblings are left unchanged — the second never receives the
origin's slice 3 (it stays at slice 0) — and the exception escapes the
fan-out, failing the originating action. -/
theorem C6_abort_counterexample :
    ((synchSlice getPixA [true, false] worldB).1).siblings = [sibA, sibA] ∧
    (synchSlice getPixA [true, false] worldB).2 = true ∧
    sibA.current_slice = 0 ∧ worldB.origin.current_slice = 3 := by
  refine ⟨by decide, by decide, by decide, by decide⟩

/-- C6, amended.  During one slice fan-out, when no sibling raises,
every sync-enabled sibling receives the identical payload; but when
applying to one sync-enabled sibling raises, the loop aborts: the
siblings before it have been updated, the raising sibling and every
sibling after it keep their previous state, and the exception escapes
the loop (failing the originating user action). -/
theorem C6_abort_semantics (getPix : ℤ → Option Img) (s : ℤ) :
    (∀ vs : List Viewer,
      fanOutSlice getPix s [] vs = (vs.map (applyIfSync getPix s), false)) ∧
    (∀ (pre post : List Viewer) (v : Viewer), v.sync_this_slice = true →
      fanOutSlice getPix s (List.replicate pre.length false ++ [true])
          (pre ++ v :: post)
        = (pre.map (applyIfSync getPix s) ++ v :: post, true)) := by
  constructor
  · intro vs
    induction vs with
    | nil => rfl
    | cons v rest ih =>
        by_cases hs : v.sync_this_slice = true
        · simp [fanOutSlice, hs, ih, applyIfSync]
        · simp [fanOutSlice, hs, ih, applyIfSync]
  · intro pre post v hv
    induction pre with
    | nil => simp [fanOutSlice, hv]
    | cons p pre' ih =>
        by_cases hp : p.sync_this_slice = true
        · simp [fanOutSlice, hp, ih, applyIfSync, List.replicate_succ]
        · simp [fanOutSlice, hp, ih, applyIfSync, List.replicate_succ]

/-- C6, witness for `C6_abort_semantics`: a one-sibling abort. -/
theorem C6_abort_semantics_witness :
    fanOutSlice getPixA 3 (List.replicate ([] : List Viewer).length false ++ [true])
        ([] ++ sibA :: [sibA])
      = (([] : List Viewer).map (applyIfSync getPixA 3) ++ sibA :: [sibA], true) :=
  (C6_abort_semantics getPixA 3).2 [] [sibA] sibA (by decide)

/-- C7, confirmed.  During slice fan-out to a sync-enabled sibling:
a volumetric sibling with an idle guard and a successful pixmap read
ends at frame index `idx` when `idx < frameCount` and at exactly
`frameCount - 1` when `idx ≥ frameCount` — never out of range
(butterfly_viewer.py lines 2817-2823 with the clamp of lines 526-529);
a non-volumetric sibling displaying a non-null pixmap has its content
replaced by a black raster of that pixmap's dimensions (lines
2827-2842). -/
theorem C7_clamp_and_blank (getPix : ℤ → Option Img) (s : ℤ)
    (v : Viewer) :
    (v.is_volumetric = true → v.handling_slice_sync = false →
      0 ≤ s → 0 < v.total_slices → (∀ j, (getPix j).isSome = true) →
      (applySliceOk getPix s v).current_slice
          = (if s < v.total_slices then s else v.total_slices - 1) ∧
      (applySliceOk getPix s v).current_slice < v.total_slices) ∧
    (v.is_volumetric = false → ∀ pm, v.displayed = some pm →
      pm.isNull = false →
      (applySliceOk getPix s v).displayed
          = some (blackPixmap pm.width pm.height)) := by
  constructor
  · intro hvol hguard hs htot hpix
    unfold applySliceOk load_slice_applied
    rw [hvol]
    simp only [if_true, Bool.not_true, Bool.false_eq_true, if_false, hguard]
    split
    · next hlt =>
        rw [if_neg (by omega), if_neg (by omega)]
        obtain ⟨pm, hpm⟩ := Option.isSome_iff_exists.mp (hpix s)
        rw [hpm]
        exact ⟨rfl, hlt⟩
    · next hge =>
        rw [if_neg (by omega), if_neg (by omega)]
        obtain ⟨pm, hpm⟩ := Option.isSome_iff_exists.mp
          (hpix (v.total_slices - 1))
        rw [hpm]
        refine ⟨rfl, ?_⟩
        show v.total_slices - 1 < v.total_slices
        omega
  · intro hnvol pm hdisp hnull
    unfold applySliceOk
    rw [hnvol]
    simp [hdisp, hnull]

/-- C7, witness for `C7_clamp_and_blank`: a 3-slice sibling receiving
slice index 7 ends at slice 2; a non-volumetric sibling displaying the
4×5 raster `pmN` ends displaying a 4×5 black raster. -/
theorem C7_clamp_and_blank_witness :
    ((applySliceOk getPixA 7 vvA).current_slice
        = (if (7 : ℤ) < vvA.total_slices then 7 else vvA.total_slices - 1) ∧
      (applySliceOk getPixA 7 vvA).current_slice < vvA.total_slices) ∧
    (applySliceOk getPixA 7 nvA).displayed
        = some (blackPixmap pmN.width pmN.height) :=
  ⟨(C7_clamp_and_blank getPixA 7 vvA).1 rfl rfl (by decide) (by decide)
      (fun _ => rfl),
   (C7_clamp_and_blank getPixA 7 nvA).2 rfl pmN rfl rfl⟩
